import Mathlib

/-!
# Verification of the vmmig_bench exporter (cmd/start.go, cmd/config.go)

Shallow embedding of the Go sources of `lucky-sideburn/vmmig_bench`, a
Prometheus exporter that polls the KubeVirt / forklift REST API and
republishes VM counts, per-VM statuses and migration durations as metrics.

Modelling conventions:
- A Prometheus metric vector (`prometheus.GaugeVec` / `CounterVec`) is an
  association list from its label tuple to its current value; `Set` is
  last-write-wins update (`setLabel`), a scrape read is `getLabel`.
- Metric values (Go `float64`) are modelled exactly as rationals `ℚ`;
  the claims under study concern exact arithmetic (lengths, differences
  of timestamps, the constant 1), not floating-point rounding.
- An upstream HTTP GET plus JSON decode is abstracted as a `FetchOutcome`:
  either a transport error (`client.Do` failed), or a response carrying its
  status code together with the result of `json.Unmarshal` on the body
  (`none` when the decode fails).  The routines' branching on these
  outcomes mirrors the Go control flow line by line.
- `time.Parse time.RFC3339` is abstracted as a parameter
  `parse : String → Option ℚ` returning the instant in seconds when the
  string parses; `completed.Sub(started).Seconds()` becomes subtraction.
- Log output (`fmt.Printf`/`Println`) is modelled by separate functions
  returning the printed lines, so that the state-transforming routines
  stay first-order; dynamic `%v` error texts are abbreviated to their
  token-independent parts.
-/

/-- Last-write-wins update of an association list, the semantics of
`metric.WithLabelValues(labels...).Set(v)` (and of Go map assignment). -/
def setLabel {α β : Type} [DecidableEq α] : List (α × β) → α → β → List (α × β)
  | [], k, v => [(k, v)]
  | (k', v') :: rest, k, v =>
    if k' = k then (k, v) :: rest else (k', v') :: setLabel rest k v

/-- Read the current value of a label tuple, the semantics of a scrape. -/
def getLabel {α β : Type} [DecidableEq α] : List (α × β) → α → Option β
  | [], _ => none
  | (k', v') :: rest, k => if k' = k then some v' else getLabel rest k

theorem getLabel_setLabel_self {α β : Type} [DecidableEq α]
    (l : List (α × β)) (k : α) (v : β) : getLabel (setLabel l k v) k = some v := by
  induction l with
  | nil => simp [setLabel, getLabel]
  | cons hd tl ih =>
    obtain ⟨k', v'⟩ := hd
    by_cases h : k' = k <;> simp [setLabel, getLabel, h, ih]

theorem getLabel_setLabel_ne {α β : Type} [DecidableEq α]
    (l : List (α × β)) {k k' : α} (v : β) (h : k' ≠ k) :
    getLabel (setLabel l k v) k' = getLabel l k' := by
  induction l with
  | nil => simp [setLabel, getLabel, Ne.symm h]
  | cons hd tl ih =>
    obtain ⟨k₀, v₀⟩ := hd
    by_cases h0 : k₀ = k
    · subst h0
      simp [setLabel, getLabel, Ne.symm h]
    · simp [setLabel, getLabel, h0, ih]

theorem getLabel_setLabel_isSome {α β : Type} [DecidableEq α]
    (l : List (α × β)) (k k' : α) (v : β) (h : (getLabel l k').isSome) :
    (getLabel (setLabel l k v) k').isSome := by
  by_cases hk : k' = k
  · subst hk; simp [getLabel_setLabel_self]
  · rwa [getLabel_setLabel_ne l v hk]

/-! ## Data model: decoded JSON snapshots

The anonymous Go structs that `json.Unmarshal` targets, with field names
kept from the source (`start.go`). -/

/-- `metadata:{name}` of one item of the `virtualmachines` list response. -/
structure VMItemMetadata where
  Name : String
  deriving DecidableEq

/-- `status:{printableStatus}` of one item of the `virtualmachines` list. -/
structure VMItemStatus where
  PrintableStatus : String
  deriving DecidableEq

/-- One item of the `virtualmachines` list response. -/
structure VMItem where
  Metadata : VMItemMetadata
  Status : VMItemStatus
  deriving DecidableEq

/-- The decoded `virtualmachines` list response `{items: [...]}`. -/
structure VMList where
  Items : List VMItem
  deriving DecidableEq

/-- One per-VM entry of a migration's status: `{name, started, completed}`,
the timestamps still raw strings as in the Go struct. -/
structure MigrationVM where
  Name : String
  Started : String
  Completed : String
  deriving DecidableEq

/-- The `status` block of one migration: `{namespace, vms:[...]}`.
(`namespace` is a Lean keyword, so the Go field name is capitalised.) -/
structure MigrationStatus where
  Namespace : String
  Vms : List MigrationVM
  deriving DecidableEq

/-- One item of the `migrations` list response. -/
structure Migration where
  Status : MigrationStatus
  deriving DecidableEq

/-- The decoded `migrations` list response `{items: [...]}`. -/
structure MigrationList where
  Items : List Migration
  deriving DecidableEq

/-! ## Metric registry state

The four metric vectors registered in `start.go`, as label-to-value maps. -/

/-- The process-wide metric registry: current value of every label tuple of
the four registered metric vectors. -/
structure Metrics where
  /-- `virtual_machine_count_total{namespace}` -/
  vmCount : List (String × ℚ)
  /-- `virtual_machine_status{namespace, vm_name, status}` -/
  vmStatus : List ((String × String × String) × ℚ)
  /-- `failed_migrations_total{namespace}` -/
  failedMigrations : List (String × ℚ)
  /-- `virtual_machine_migration_time_seconds{namespace, vm_name}` -/
  migrationTime : List ((String × String) × ℚ)
  deriving DecidableEq

/-- The registry at process start: no label tuple has been written yet. -/
def initialMetrics : Metrics :=
  { vmCount := [], vmStatus := [], failedMigrations := [], migrationTime := [] }

/-! ## Upstream call abstraction -/

/-- Outcome of one HTTP GET plus JSON decode against the upstream API:
`transportError` models a failing `client.Do`; `response status decoded`
models a reply with the given status code whose body decodes to
`some value`, or fails to decode (`none`). -/
inductive FetchOutcome (α : Type) where
  | transportError
  | response (status : Nat) (decoded : Option α)
  deriving DecidableEq

/-- The error values the extraction routines return: the underlying
transport error, `fmt.Errorf("unexpected status code: %d", status)`, or a
`json.Unmarshal` error. -/
inductive ExportError where
  | transport
  | unexpectedStatus (status : Nat)
  | decodeError
  deriving DecidableEq

/-- An extraction routine invocation that returns an error before reaching
its metric writes: the transport call failed, the status is not 200, or the
body did not decode. -/
def fetchFails {α : Type} : FetchOutcome α → Prop
  | .transportError => True
  | .response status decoded => status ≠ 200 ∨ decoded = none

/-! ## The three extraction routines (state part)

Each mirrors the corresponding function of `start.go`: same branch order
(transport error, then `resp.StatusCode != http.StatusOK`, then decode,
then the metric writes), returning the Go result paired with the updated
registry. -/

/-- `exportVirtualMachineCount(serverURL, token, namespace)`: on a decoded
200 response sets `virtual_machine_count_total{namespace}` to
`len(vmList.Items)` and returns that count; any earlier failure returns the
error with no write.  (The count decode target is `Items []struct{}`: the
items' contents are never inspected, only the length.) -/
def exportVirtualMachineCount (ns : String) (fetch : FetchOutcome VMList)
    (m : Metrics) : Except ExportError Nat × Metrics :=
  match fetch with
  | .transportError => (.error .transport, m)
  | .response status decoded =>
    if status ≠ 200 then (.error (.unexpectedStatus status), m)
    else
      match decoded with
      | none => (.error .decodeError, m)
      | some vmList =>
        let count := vmList.Items.length
        (.ok count, { m with vmCount := setLabel m.vmCount ns (count : ℚ) })

/-- The loop body of `exportVirtualMachineNamesAndStatuses`: record the
VM in the name-to-status map and set
`virtual_machine_status{namespace, vm_name, status}` to 1. -/
def recordVMStatus (ns : String) (acc : List (String × String) × Metrics)
    (vm : VMItem) : List (String × String) × Metrics :=
  (setLabel acc.1 vm.Metadata.Name vm.Status.PrintableStatus,
   { acc.2 with
      vmStatus :=
        setLabel acc.2.vmStatus (ns, vm.Metadata.Name, vm.Status.PrintableStatus) 1 })

/-- `exportVirtualMachineNamesAndStatuses(serverURL, token, namespace)`:
on a decoded 200 response builds the name-to-status map and sets the status
gauge to 1 for every item; any earlier failure returns the error with no
write. -/
def exportVirtualMachineNamesAndStatuses (ns : String)
    (fetch : FetchOutcome VMList) (m : Metrics) :
    Except ExportError (List (String × String)) × Metrics :=
  match fetch with
  | .transportError => (.error .transport, m)
  | .response status decoded =>
    if status ≠ 200 then (.error (.unexpectedStatus status), m)
    else
      match decoded with
      | none => (.error .decodeError, m)
      | some vmList =>
        let r := vmList.Items.foldl (recordVMStatus ns) ([], m)
        (.ok r.1, r.2)

/-- The inner loop body of `exportVirtualMachineMigrationTime`: parse the
two timestamps (`continue` on either failure, writing nothing), then set
`virtual_machine_migration_time_seconds{namespace, vm_name}` to
`completed.Sub(started).Seconds()`. -/
def processMigrationVM (parse : String → Option ℚ) (ns : String)
    (m : Metrics) (vm : MigrationVM) : Metrics :=
  match parse vm.Started with
  | none => m
  | some started =>
    match parse vm.Completed with
    | none => m
    | some completed =>
      let duration := completed - started
      { m with migrationTime := setLabel m.migrationTime (ns, vm.Name) duration }

/-- The outer loop body of `exportVirtualMachineMigrationTime`: process
every VM entry of one migration under its status namespace. -/
def processMigration (parse : String → Option ℚ) (m : Metrics)
    (migration : Migration) : Metrics :=
  migration.Status.Vms.foldl (processMigrationVM parse migration.Status.Namespace) m

/-- `exportVirtualMachineMigrationTime(serverURL, token)`: on a decoded 200
response of the cluster-wide `migrations` resource, writes one duration per
VM entry with two parseable timestamps and returns `(true, nil)`; any
earlier failure returns the error with no write. -/
def exportVirtualMachineMigrationTime (parse : String → Option ℚ)
    (fetch : FetchOutcome MigrationList) (m : Metrics) :
    Except ExportError Bool × Metrics :=
  match fetch with
  | .transportError => (.error .transport, m)
  | .response status decoded =>
    if status ≠ 200 then (.error (.unexpectedStatus status), m)
    else
      match decoded with
      | none => (.error .decodeError, m)
      | some migrations =>
        (.ok true, migrations.Items.foldl (processMigration parse) m)

/-! ## Scheduler loop

The background goroutine of `startCmd`: every cycle iterates the namespace
list running count then status extraction, then runs the migration-time
extraction once, then sleeps `sleepSeconds`.  Each cycle records a trace of
the calls it makes, in order. -/

/-- `sleepSeconds` is set to 15 in `init()` and never changed (no flag
exposes it). -/
def sleepSeconds : Nat := 15

/-- One observable step of the scheduler loop. -/
inductive Event where
  | countCall (ns : String)
  | statusCall (ns : String)
  | migrationCall
  | sleepFor (seconds : Nat)
  deriving DecidableEq

/-- The per-namespace body of a cycle: run `exportVirtualMachineCount` then
`exportVirtualMachineNamesAndStatuses`, recording both calls. -/
def cycleNamespaceStep (countFetch statusFetch : String → FetchOutcome VMList)
    (acc : Metrics × List Event) (ns : String) : Metrics × List Event :=
  let m1 := (exportVirtualMachineCount ns (countFetch ns) acc.1).2
  let m2 := (exportVirtualMachineNamesAndStatuses ns (statusFetch ns) m1).2
  (m2, acc.2 ++ [Event.countCall ns, Event.statusCall ns])

/-- One full cycle of the scheduler loop, over the configured namespace
list, with the upstream outcomes of this cycle's HTTP calls supplied as
functions of the namespace. -/
def runCycle (countFetch statusFetch : String → FetchOutcome VMList)
    (migFetch : FetchOutcome MigrationList) (parse : String → Option ℚ)
    (namespaceList : List String) (m : Metrics) : Metrics × List Event :=
  let a := namespaceList.foldl (cycleNamespaceStep countFetch statusFetch) (m, [])
  let m3 := (exportVirtualMachineMigrationTime parse migFetch a.1).2
  (m3, a.2 ++ [Event.migrationCall, Event.sleepFor sleepSeconds])

/-- `k` cycles of the infinite scheduler loop; cycle number `i` sees the
upstream outcomes `countFetch i`, `statusFetch i`, `migFetch i`. -/
def runLoop (parse : String → Option ℚ) (namespaceList : List String)
    (countFetch statusFetch : Nat → String → FetchOutcome VMList)
    (migFetch : Nat → FetchOutcome MigrationList) :
    Nat → Metrics → Metrics × List Event
  | 0, m => (m, [])
  | k + 1, m =>
    let prev := runLoop parse namespaceList countFetch statusFetch migFetch k m
    let c := runCycle (countFetch k) (statusFetch k) (migFetch k) parse
      namespaceList prev.1
    (c.1, prev.2 ++ c.2)

/-! ## Startup metric registration

`startCmd` registers the four metric vectors into a fresh registry, in
source order.  For each one: a `nil` error continues; an
`AlreadyRegisteredError` is handled by adopting the existing collector and
continuing; any other error is printed and the process exits with code 1. -/

/-- The four metric vectors of `start.go`. -/
inductive MetricId where
  | vmStatusMetric
  | failedMigrationsMetric
  | migrationTimeMetric
  | vmCountMetric
  deriving DecidableEq

/-- The order in which `startCmd` registers the metric vectors. -/
def registrationOrder : List MetricId :=
  [MetricId.vmStatusMetric, MetricId.failedMigrationsMetric,
   MetricId.migrationTimeMetric, MetricId.vmCountMetric]

/-- Possible results of one `registry.Register` call. -/
inductive RegisterOutcome where
  | ok
  | alreadyRegistered
  | failure
  deriving DecidableEq

/-- Whether one registration's error branch calls `os.Exit(1)`: only an
error that is not an `AlreadyRegisteredError` does; an
`AlreadyRegisteredError` adopts `are.ExistingCollector` and continues. -/
def registerStepExits : RegisterOutcome → Bool
  | .ok => false
  | .alreadyRegistered => false
  | .failure => true

/-- Exit code produced by the registration block of `startCmd` before the
polling loop starts: `some 1` when some registration hits the
`os.Exit(1)` branch, `none` when startup proceeds to the loop. -/
def startupExitCode (outcome : MetricId → RegisterOutcome) : Option Nat :=
  if (registrationOrder.map outcome).any registerStepExits then some 1 else none

/-! ## Printed output

The `fmt.Printf`/`fmt.Println` lines of `start.go`, as lists of printed
lines.  The bearer token flows into each request's `Authorization` header
(modelled in `HttpRequest`), but the only request field ever printed is
`req.URL`; the startup banner prints the literal mask instead of the token.
Dynamic `%v` error texts and Go's `%f`/time formatting are abbreviated to
deterministic token-independent renderings (`toString`). -/

/-- The pieces of an upstream GET request that `start.go` builds: the URL,
and the `Authorization: Bearer <token>` header. -/
structure HttpRequest where
  url : String
  authorization : String
  deriving DecidableEq

/-- The request of the two VM-list routines:
`{serverURL}/apis/kubevirt.io/v1/namespaces/{namespace}/virtualmachines`. -/
def mkVMListRequest (serverURL token ns : String) : HttpRequest :=
  { url := serverURL ++ "/apis/kubevirt.io/v1/namespaces/" ++ ns ++ "/virtualmachines",
    authorization := "Bearer " ++ token }

/-- The request of the migration-time routine:
`{serverURL}/apis/forklift.konveyor.io/v1beta1/migrations`. -/
def mkMigrationsRequest (serverURL token : String) : HttpRequest :=
  { url := serverURL ++ "/apis/forklift.konveyor.io/v1beta1/migrations",
    authorization := "Bearer " ++ token }

/-- Go's `%v` rendering of the `[]string` namespace list: the elements
space-separated inside brackets. -/
def fmtStringSlice (l : List String) : String :=
  "[" ++ String.intercalate (" ") l ++ "]"

/-- The lines `startCmd` prints before starting the background loop
(`start.go` lines 74-82).  The token is printed only as the literal mask
`***`: the banner is not a function of the token at all. -/
def startupBanner (serverURL : String) (namespaceList : List String) : List String :=
  ["========================================",
   "          vmmig_bench Exporter          ",
   "          Powered by DevOpsTribe.it     ",
   "========================================",
   "start called with --token=*** --server-url=" ++ serverURL
     ++ " --namespaces=" ++ fmtStringSlice namespaceList,
   "Starting Prometheus exporter...",
   "Initializing Prometheus exporter..."]

/-- The lines `exportVirtualMachineCount` prints (its error paths return
without printing). -/
def countLogs (serverURL token ns : String) : List String :=
  let req := mkVMListRequest serverURL token ns
  ["Fetching virtual machine count for namespace " ++ ns ++ "...",
   "Request URL: " ++ req.url]

/-- The lines `exportVirtualMachineNamesAndStatuses` prints (its error
paths return without printing). -/
def statusLogs (serverURL token ns : String) : List String :=
  let req := mkVMListRequest serverURL token ns
  ["Fetching virtual machine names and statuses for namespace " ++ ns ++ "...",
   "Request URL: " ++ req.url]

/-- The lines the inner loop of `exportVirtualMachineMigrationTime` prints
for one VM entry: a warning when a timestamp fails to parse, otherwise the
two parsed instants and the duration. -/
def vmTimeLogs (parse : String → Option ℚ) (vm : MigrationVM) : List String :=
  match parse vm.Started with
  | none => ["Error parsing start time for VM " ++ vm.Name]
  | some started =>
    ("VM " ++ vm.Name ++ " started at: " ++ toString started) ::
    match parse vm.Completed with
    | none => ["Error parsing completion time for VM " ++ vm.Name]
    | some completed =>
      ["VM " ++ vm.Name ++ " completed at: " ++ toString completed,
       "VM " ++ vm.Name ++ " migration duration: "
         ++ toString (completed - started) ++ " seconds"]

/-- The lines `exportVirtualMachineMigrationTime` prints: the request URL,
then the response status code when the transport call succeeded, then the
per-VM lines of a decoded 200 response. -/
def migrationTimeLogs (serverURL token : String) (parse : String → Option ℚ)
    (fetch : FetchOutcome MigrationList) : List String :=
  let req := mkMigrationsRequest serverURL token
  ("Request URL: " ++ req.url) ::
  match fetch with
  | .transportError => []
  | .response status decoded =>
    ("Response status code when calling API for migrations: " ++ toString status) ::
    if status ≠ 200 then []
    else
      match decoded with
      | none => []
      | some migrations =>
        migrations.Items.flatMap fun migration =>
          migration.Status.Vms.flatMap (vmTimeLogs parse)

/-- Everything the process prints through the banner and one cycle of the
scheduler loop, as a function of the configuration and this cycle's
upstream outcomes. -/
def runOutput (token serverURL : String) (namespaceList : List String)
    (countFetch statusFetch : String → FetchOutcome VMList)
    (migFetch : FetchOutcome MigrationList) (parse : String → Option ℚ) :
    List String :=
  startupBanner serverURL namespaceList ++
  (namespaceList.flatMap fun ns =>
    countLogs serverURL token ns ++ statusLogs serverURL token ns) ++
  migrationTimeLogs serverURL token parse migFetch

/-! ## Effect lemmas: which metric families each routine can touch -/

theorem exportVirtualMachineCount_effect (ns : String) (f : FetchOutcome VMList)
    (m : Metrics) :
    (exportVirtualMachineCount ns f m).2.vmStatus = m.vmStatus ∧
    (exportVirtualMachineCount ns f m).2.failedMigrations = m.failedMigrations ∧
    (exportVirtualMachineCount ns f m).2.migrationTime = m.migrationTime := by
  cases f with
  | transportError => simp [exportVirtualMachineCount]
  | response status decoded =>
    cases decoded <;> by_cases h : status = 200 <;>
      simp [exportVirtualMachineCount, h]

theorem recordVMStatus_foldl_fields (ns : String) (items : List VMItem) :
    ∀ acc : List (String × String) × Metrics,
    (items.foldl (recordVMStatus ns) acc).2.vmCount = acc.2.vmCount ∧
    (items.foldl (recordVMStatus ns) acc).2.failedMigrations = acc.2.failedMigrations ∧
    (items.foldl (recordVMStatus ns) acc).2.migrationTime = acc.2.migrationTime := by
  induction items with
  | nil => intro acc; simp
  | cons vm rest ih =>
    intro acc
    have h := ih (recordVMStatus ns acc vm)
    simpa [recordVMStatus] using h

theorem recordVMStatus_foldl_vmStatus (ns : String) (items : List VMItem) :
    ∀ (acc : List (String × String) × Metrics) (key : String × String × String),
    (getLabel (items.foldl (recordVMStatus ns) acc).2.vmStatus key
        = getLabel acc.2.vmStatus key ∨
     getLabel (items.foldl (recordVMStatus ns) acc).2.vmStatus key = some 1) ∧
    ((getLabel acc.2.vmStatus key).isSome →
     (getLabel (items.foldl (recordVMStatus ns) acc).2.vmStatus key).isSome) := by
  induction items with
  | nil => intro acc key; simp
  | cons vm rest ih =>
    intro acc key
    have h := ih (recordVMStatus ns acc vm) key
    set knew : String × String × String :=
      (ns, vm.Metadata.Name, vm.Status.PrintableStatus) with hknew
    have hstep : getLabel (recordVMStatus ns acc vm).2.vmStatus key
        = getLabel acc.2.vmStatus key ∨
        getLabel (recordVMStatus ns acc vm).2.vmStatus key = some 1 := by
      by_cases hk : key = knew
      · subst hk
        right
        simp [recordVMStatus, getLabel_setLabel_self]
      · left
        simp [recordVMStatus, getLabel_setLabel_ne _ _ hk]
    have hmono : (getLabel acc.2.vmStatus key).isSome →
        (getLabel (recordVMStatus ns acc vm).2.vmStatus key).isSome := by
      intro hs
      simpa [recordVMStatus] using
        getLabel_setLabel_isSome acc.2.vmStatus knew key 1 hs
    constructor
    · rcases h.1 with h1 | h1
      · rw [List.foldl_cons, h1]
        exact hstep
      · right; rw [List.foldl_cons, h1]
    · intro hs
      rw [List.foldl_cons]
      exact h.2 (hmono hs)

theorem exportVirtualMachineNamesAndStatuses_effect (ns : String)
    (f : FetchOutcome VMList) (m : Metrics) :
    (exportVirtualMachineNamesAndStatuses ns f m).2.vmCount = m.vmCount ∧
    (exportVirtualMachineNamesAndStatuses ns f m).2.failedMigrations
      = m.failedMigrations ∧
    (exportVirtualMachineNamesAndStatuses ns f m).2.migrationTime
      = m.migrationTime := by
  cases f with
  | transportError => simp [exportVirtualMachineNamesAndStatuses]
  | response status decoded =>
    cases decoded with
    | none =>
      by_cases h : status = 200 <;> simp [exportVirtualMachineNamesAndStatuses, h]
    | some vmList =>
      by_cases h : status = 200
      · simpa [exportVirtualMachineNamesAndStatuses, h] using
          recordVMStatus_foldl_fields ns vmList.Items ([], m)
      · simp [exportVirtualMachineNamesAndStatuses, h]

theorem exportVirtualMachineNamesAndStatuses_vmStatus (ns : String)
    (f : FetchOutcome VMList) (m : Metrics) (key : String × String × String) :
    (getLabel (exportVirtualMachineNamesAndStatuses ns f m).2.vmStatus key
        = getLabel m.vmStatus key ∨
     getLabel (exportVirtualMachineNamesAndStatuses ns f m).2.vmStatus key
        = some 1) ∧
    ((getLabel m.vmStatus key).isSome →
     (getLabel (exportVirtualMachineNamesAndStatuses ns f m).2.vmStatus key).isSome) := by
  cases f with
  | transportError => simp [exportVirtualMachineNamesAndStatuses]
  | response status decoded =>
    cases decoded with
    | none =>
      by_cases h : status = 200 <;> simp [exportVirtualMachineNamesAndStatuses, h]
    | some vmList =>
      by_cases h : status = 200
      · simpa [exportVirtualMachineNamesAndStatuses, h] using
          recordVMStatus_foldl_vmStatus ns vmList.Items ([], m) key
      · simp [exportVirtualMachineNamesAndStatuses, h]

theorem processMigrationVM_fields (parse : String → Option ℚ) (ns : String)
    (m : Metrics) (vm : MigrationVM) :
    (processMigrationVM parse ns m vm).vmCount = m.vmCount ∧
    (processMigrationVM parse ns m vm).vmStatus = m.vmStatus ∧
    (processMigrationVM parse ns m vm).failedMigrations = m.failedMigrations := by
  cases hs : parse vm.Started with
  | none => simp [processMigrationVM, hs]
  | some started =>
    cases hc : parse vm.Completed <;> simp [processMigrationVM, hs, hc]

theorem processMigration_foldl_fields (parse : String → Option ℚ)
    (items : List Migration) :
    ∀ m : Metrics,
    (items.foldl (processMigration parse) m).vmCount = m.vmCount ∧
    (items.foldl (processMigration parse) m).vmStatus = m.vmStatus ∧
    (items.foldl (processMigration parse) m).failedMigrations
      = m.failedMigrations := by
  have hvm : ∀ (ns : String) (vms : List MigrationVM) (m : Metrics),
      (vms.foldl (processMigrationVM parse ns) m).vmCount = m.vmCount ∧
      (vms.foldl (processMigrationVM parse ns) m).vmStatus = m.vmStatus ∧
      (vms.foldl (processMigrationVM parse ns) m).failedMigrations
        = m.failedMigrations := by
    intro ns vms
    induction vms with
    | nil => intro m; simp
    | cons vm rest ih =>
      intro m
      have h1 := processMigrationVM_fields parse ns m vm
      have h2 := ih (processMigrationVM parse ns m vm)
      exact ⟨by rw [List.foldl_cons, h2.1, h1.1],
             by rw [List.foldl_cons, h2.2.1, h1.2.1],
             by rw [List.foldl_cons, h2.2.2, h1.2.2]⟩
  induction items with
  | nil => intro m; simp
  | cons migration rest ih =>
    intro m
    have h1 := hvm migration.Status.Namespace migration.Status.Vms m
    have h2 := ih (processMigration parse m migration)
    exact ⟨by rw [List.foldl_cons, h2.1]; exact h1.1,
           by rw [List.foldl_cons, h2.2.1]; exact h1.2.1,
           by rw [List.foldl_cons, h2.2.2]; exact h1.2.2⟩

theorem exportVirtualMachineMigrationTime_effect (parse : String → Option ℚ)
    (f : FetchOutcome MigrationList) (m : Metrics) :
    (exportVirtualMachineMigrationTime parse f m).2.vmCount = m.vmCount ∧
    (exportVirtualMachineMigrationTime parse f m).2.vmStatus = m.vmStatus ∧
    (exportVirtualMachineMigrationTime parse f m).2.failedMigrations
      = m.failedMigrations := by
  cases f with
  | transportError => simp [exportVirtualMachineMigrationTime]
  | response status decoded =>
    cases decoded with
    | none =>
      by_cases h : status = 200 <;> simp [exportVirtualMachineMigrationTime, h]
    | some migrations =>
      by_cases h : status = 200
      · simpa [exportVirtualMachineMigrationTime, h] using
          processMigration_foldl_fields parse migrations.Items m
      · simp [exportVirtualMachineMigrationTime, h]

/-! ## Effect and trace lemmas for the scheduler loop -/

theorem cycle_foldl_failedMigrations (cf sf : String → FetchOutcome VMList)
    (l : List String) :
    ∀ acc : Metrics × List Event,
    (l.foldl (cycleNamespaceStep cf sf) acc).1.failedMigrations
      = acc.1.failedMigrations := by
  induction l with
  | nil => intro acc; simp
  | cons ns rest ih =>
    intro acc
    rw [List.foldl_cons, ih]
    show (exportVirtualMachineNamesAndStatuses ns (sf ns) _).2.failedMigrations
      = acc.1.failedMigrations
    rw [(exportVirtualMachineNamesAndStatuses_effect ns (sf ns) _).2.1,
      (exportVirtualMachineCount_effect ns (cf ns) acc.1).2.1]

theorem runCycle_failedMigrations (cf sf : String → FetchOutcome VMList)
    (mf : FetchOutcome MigrationList) (parse : String → Option ℚ)
    (nsL : List String) (m : Metrics) :
    (runCycle cf sf mf parse nsL m).1.failedMigrations = m.failedMigrations := by
  show (exportVirtualMachineMigrationTime parse mf _).2.failedMigrations
    = m.failedMigrations
  rw [(exportVirtualMachineMigrationTime_effect parse mf _).2.2,
    cycle_foldl_failedMigrations cf sf nsL (m, [])]

theorem cycle_foldl_vmStatus (cf sf : String → FetchOutcome VMList)
    (l : List String) :
    ∀ (acc : Metrics × List Event) (key : String × String × String),
    (getLabel (l.foldl (cycleNamespaceStep cf sf) acc).1.vmStatus key
        = getLabel acc.1.vmStatus key ∨
     getLabel (l.foldl (cycleNamespaceStep cf sf) acc).1.vmStatus key = some 1) ∧
    ((getLabel acc.1.vmStatus key).isSome →
     (getLabel (l.foldl (cycleNamespaceStep cf sf) acc).1.vmStatus key).isSome) := by
  induction l with
  | nil => intro acc key; simp
  | cons ns rest ih =>
    intro acc key
    have h := ih (cycleNamespaceStep cf sf acc ns) key
    have hcnt := (exportVirtualMachineCount_effect ns (cf ns) acc.1).1
    have hstep := exportVirtualMachineNamesAndStatuses_vmStatus ns (sf ns)
      (exportVirtualMachineCount ns (cf ns) acc.1).2 key
    have hstep1 : getLabel (cycleNamespaceStep cf sf acc ns).1.vmStatus key
        = getLabel acc.1.vmStatus key ∨
        getLabel (cycleNamespaceStep cf sf acc ns).1.vmStatus key = some 1 := by
      rcases hstep.1 with h1 | h1
      · left
        show getLabel (exportVirtualMachineNamesAndStatuses ns (sf ns) _).2.vmStatus key
          = getLabel acc.1.vmStatus key
        rw [h1, hcnt]
      · right; exact h1
    have hstep2 : (getLabel acc.1.vmStatus key).isSome →
        (getLabel (cycleNamespaceStep cf sf acc ns).1.vmStatus key).isSome := by
      intro hs
      exact hstep.2 (by rwa [hcnt])
    constructor
    · rcases h.1 with h1 | h1
      · rw [List.foldl_cons, h1]; exact hstep1
      · right; rw [List.foldl_cons, h1]
    · intro hs
      rw [List.foldl_cons]
      exact h.2 (hstep2 hs)

theorem runCycle_vmStatus (cf sf : String → FetchOutcome VMList)
    (mf : FetchOutcome MigrationList) (parse : String → Option ℚ)
    (nsL : List String) (m : Metrics) (key : String × String × String) :
    (getLabel (runCycle cf sf mf parse nsL m).1.vmStatus key
        = getLabel m.vmStatus key ∨
     getLabel (runCycle cf sf mf parse nsL m).1.vmStatus key = some 1) ∧
    ((getLabel m.vmStatus key).isSome →
     (getLabel (runCycle cf sf mf parse nsL m).1.vmStatus key).isSome) := by
  have hfold := cycle_foldl_vmStatus cf sf nsL (m, []) key
  have hmig := (exportVirtualMachineMigrationTime_effect parse mf
    (nsL.foldl (cycleNamespaceStep cf sf) (m, [])).1).2.1
  have hrw : (runCycle cf sf mf parse nsL m).1.vmStatus
      = (nsL.foldl (cycleNamespaceStep cf sf) (m, [])).1.vmStatus := hmig
  rw [hrw]
  exact hfold

theorem runLoop_vmStatus (parse : String → Option ℚ) (nsL : List String)
    (cf sf : Nat → String → FetchOutcome VMList)
    (mf : Nat → FetchOutcome MigrationList) :
    ∀ (k : Nat) (m : Metrics) (key : String × String × String),
    (getLabel (runLoop parse nsL cf sf mf k m).1.vmStatus key
        = getLabel m.vmStatus key ∨
     getLabel (runLoop parse nsL cf sf mf k m).1.vmStatus key = some 1) ∧
    ((getLabel m.vmStatus key).isSome →
     (getLabel (runLoop parse nsL cf sf mf k m).1.vmStatus key).isSome) := by
  intro k
  induction k with
  | zero => intro m key; simp [runLoop]
  | succ k ih =>
    intro m key
    have hprev := ih m key
    have hc := runCycle_vmStatus (cf k) (sf k) (mf k) parse nsL
      (runLoop parse nsL cf sf mf k m).1 key
    have hrw : (runLoop parse nsL cf sf mf (k + 1) m).1.vmStatus
        = (runCycle (cf k) (sf k) (mf k) parse nsL
            (runLoop parse nsL cf sf mf k m).1).1.vmStatus := rfl
    constructor
    · rw [hrw]
      rcases hc.1 with h1 | h1
      · rw [h1]; exact hprev.1
      · right; exact h1
    · intro hs
      rw [hrw]
      exact hc.2 (hprev.2 hs)

theorem cycle_foldl_trace (cf sf : String → FetchOutcome VMList)
    (l : List String) :
    ∀ acc : Metrics × List Event,
    (l.foldl (cycleNamespaceStep cf sf) acc).2
      = acc.2 ++ l.flatMap (fun ns => [Event.countCall ns, Event.statusCall ns]) := by
  induction l with
  | nil => intro acc; simp
  | cons ns rest ih =>
    intro acc
    rw [List.foldl_cons, ih (cycleNamespaceStep cf sf acc ns)]
    simp [cycleNamespaceStep]

theorem runCycle_trace (cf sf : String → FetchOutcome VMList)
    (mf : FetchOutcome MigrationList) (parse : String → Option ℚ)
    (nsL : List String) (m : Metrics) :
    (runCycle cf sf mf parse nsL m).2
      = nsL.flatMap (fun ns => [Event.countCall ns, Event.statusCall ns])
        ++ [Event.migrationCall, Event.sleepFor sleepSeconds] := by
  show (nsL.foldl (cycleNamespaceStep cf sf) (m, [])).2
      ++ [Event.migrationCall, Event.sleepFor sleepSeconds] = _
  rw [cycle_foldl_trace cf sf nsL (m, [])]
  simp

theorem flatten_replicate_succ {α : Type} (k : Nat) (l : List α) :
    (List.replicate (k + 1) l).flatten = (List.replicate k l).flatten ++ l := by
  induction k with
  | zero => simp
  | succ k ih =>
    calc (List.replicate (k + 2) l).flatten
        = l ++ (List.replicate (k + 1) l).flatten := by simp [List.replicate_succ]
      _ = l ++ ((List.replicate k l).flatten ++ l) := by rw [ih]
      _ = (l ++ (List.replicate k l).flatten) ++ l := by rw [List.append_assoc]
      _ = (List.replicate (k + 1) l).flatten ++ l := by simp [List.replicate_succ]

theorem runLoop_trace (parse : String → Option ℚ) (nsL : List String)
    (cf sf : Nat → String → FetchOutcome VMList)
    (mf : Nat → FetchOutcome MigrationList) :
    ∀ (k : Nat) (m : Metrics),
    (runLoop parse nsL cf sf mf k m).2
      = (List.replicate k
          (nsL.flatMap (fun ns => [Event.countCall ns, Event.statusCall ns])
            ++ [Event.migrationCall, Event.sleepFor sleepSeconds])).flatten := by
  intro k
  induction k with
  | zero => intro m; simp [runLoop]
  | succ k ih =>
    intro m
    show (runLoop parse nsL cf sf mf k m).2
        ++ (runCycle (cf k) (sf k) (mf k) parse nsL
            (runLoop parse nsL cf sf mf k m).1).2 = _
    rw [ih m, runCycle_trace, flatten_replicate_succ]

/-! ## Claim theorems -/

/-- C1: For every VM list response successfully fetched and decoded for a
namespace (a 200 response whose body decodes), `exportVirtualMachineCount`
sets `virtual_machine_count_total{namespace}` to the number of elements of
the response's `items` array — whatever the items' contents — and returns
that count. -/
theorem count_gauge_is_items_length :
    ∀ (ns : String) (m : Metrics) (vmList : VMList),
    exportVirtualMachineCount ns (.response 200 (some vmList)) m
      = (.ok vmList.Items.length,
         { m with vmCount := setLabel m.vmCount ns (vmList.Items.length : ℚ) }) ∧
    getLabel
      (exportVirtualMachineCount ns (.response 200 (some vmList)) m).2.vmCount ns
      = some (vmList.Items.length : ℚ) := by
  intro ns m vmList
  refine ⟨by simp [exportVirtualMachineCount], ?_⟩
  simp [exportVirtualMachineCount, getLabel_setLabel_self]

/-- C2: For every migration VM entry whose `started` and `completed` fields
both parse, with `started < completed`, the per-entry step of
`exportVirtualMachineMigrationTime` sets
`virtual_machine_migration_time_seconds{namespace, vm_name}` to
`completed - started` seconds, a non-negative value. -/
theorem migration_duration_gauge_set (parse : String → Option ℚ)
    (ns : String) (m : Metrics) (vm : MigrationVM) (started completed : ℚ)
    (hs : parse vm.Started = some started)
    (hc : parse vm.Completed = some completed)
    (hlt : started < completed) :
    getLabel (processMigrationVM parse ns m vm).migrationTime (ns, vm.Name)
      = some (completed - started) ∧
    0 ≤ completed - started := by
  constructor
  · simp [processMigrationVM, hs, hc, getLabel_setLabel_self]
  · linarith

/-- Witness for C2 at the spec's own scenario: a migration of 1043
seconds. -/
theorem migration_duration_gauge_set_witness :
    getLabel
      (processMigrationVM
        (fun t => if t = "2025-01-01T00:00:00Z" then some 0
          else if t = "2025-01-01T00:17:23Z" then some 1043 else none)
        "migrationlab" initialMetrics
        ⟨"centos-stream10-apricot-slug-73", "2025-01-01T00:00:00Z",
          "2025-01-01T00:17:23Z"⟩).migrationTime
      ("migrationlab", "centos-stream10-apricot-slug-73")
      = some ((1043 : ℚ) - 0) ∧
    (0 : ℚ) ≤ (1043 : ℚ) - 0 :=
  migration_duration_gauge_set _ _ _ _ 0 1043 (by simp) (by simp) (by norm_num)

/-- C3: A migration VM entry with an unparseable `started` or `completed`
timestamp produces no metric write at all (the step is the identity on the
registry), and processing a VM list containing such an entry equals
processing the list with the entry removed: sibling entries are still
processed normally. -/
theorem unparseable_timestamp_skips_vm (parse : String → Option ℚ)
    (ns : String) (vm : MigrationVM)
    (h : parse vm.Started = none ∨ parse vm.Completed = none) :
    (∀ m : Metrics, processMigrationVM parse ns m vm = m) ∧
    (∀ (m : Metrics) (pre post : List MigrationVM),
      (pre ++ vm :: post).foldl (processMigrationVM parse ns) m
        = (pre ++ post).foldl (processMigrationVM parse ns) m) := by
  have hid : ∀ m : Metrics, processMigrationVM parse ns m vm = m := by
    intro m
    rcases h with h | h
    · simp [processMigrationVM, h]
    · cases hs : parse vm.Started with
      | none => simp [processMigrationVM, hs]
      | some started => simp [processMigrationVM, hs, h]
  refine ⟨hid, ?_⟩
  intro m pre post
  rw [List.foldl_append, List.foldl_append, List.foldl_cons, hid]

/-- Witness for C3: a bad entry between two good ones changes nothing about
how the good ones are processed. -/
theorem unparseable_timestamp_skips_vm_witness :
    (processMigrationVM (fun t => if t = "bad" then none else some 7)
        "ns1" initialMetrics ⟨"vm-bad", "bad", "bad"⟩ = initialMetrics) ∧
    ([⟨"vm-a", "t", "t"⟩, (⟨"vm-bad", "bad", "bad"⟩ : MigrationVM),
        ⟨"vm-b", "t", "t"⟩].foldl
        (processMigrationVM (fun t => if t = "bad" then none else some 7) "ns1")
        initialMetrics
      = [(⟨"vm-a", "t", "t"⟩ : MigrationVM), ⟨"vm-b", "t", "t"⟩].foldl
        (processMigrationVM (fun t => if t = "bad" then none else some 7) "ns1")
        initialMetrics) :=
  have h := unparseable_timestamp_skips_vm
    (fun t => if t = "bad" then none else some 7) "ns1"
    ⟨"vm-bad", "bad", "bad"⟩ (Or.inl (by simp))
  ⟨h.1 initialMetrics,
    h.2 initialMetrics [⟨"vm-a", "t", "t"⟩] [⟨"vm-b", "t", "t"⟩]⟩

/-- C10: a VM entry whose timestamps both parse but with `completed`
earlier than `started` still gets its duration gauge set, to the negative
value `completed - started`: the code has no non-negativity guard. -/
theorem migration_duration_negative_set (parse : String → Option ℚ)
    (ns : String) (m : Metrics) (vm : MigrationVM) (started completed : ℚ)
    (hs : parse vm.Started = some started)
    (hc : parse vm.Completed = some completed)
    (hlt : completed < started) :
    getLabel (processMigrationVM parse ns m vm).migrationTime (ns, vm.Name)
      = some (completed - started) ∧
    completed - started < 0 := by
  constructor
  · simp [processMigrationVM, hs, hc, getLabel_setLabel_self]
  · linarith

/-- Witness for C10: completed 60 seconds before started gives a gauge
value of -60. -/
theorem migration_duration_negative_set_witness :
    getLabel
      (processMigrationVM
        (fun t => if t = "2025-01-01T00:01:00Z" then some 60
          else if t = "2025-01-01T00:00:00Z" then some 0 else none)
        "ns1" initialMetrics
        ⟨"vm-back", "2025-01-01T00:01:00Z", "2025-01-01T00:00:00Z"⟩).migrationTime
      ("ns1", "vm-back")
      = some ((0 : ℚ) - 60) ∧
    (0 : ℚ) - 60 < 0 :=
  migration_duration_negative_set _ _ _ _ 60 0 (by simp) (by simp) (by norm_num)

theorem count_fetchFails (ns : String) (f : FetchOutcome VMList) (m : Metrics)
    (h : fetchFails f) :
    (exportVirtualMachineCount ns f m).2 = m ∧
    ∃ e, (exportVirtualMachineCount ns f m).1 = .error e := by
  cases f with
  | transportError => exact ⟨rfl, .transport, rfl⟩
  | response status decoded =>
    rcases h with h | h
    · simp [exportVirtualMachineCount, h]
    · subst h
      by_cases hs : status = 200 <;> simp [exportVirtualMachineCount, hs]

theorem status_fetchFails (ns : String) (f : FetchOutcome VMList) (m : Metrics)
    (h : fetchFails f) :
    (exportVirtualMachineNamesAndStatuses ns f m).2 = m ∧
    ∃ e, (exportVirtualMachineNamesAndStatuses ns f m).1 = .error e := by
  cases f with
  | transportError => exact ⟨rfl, .transport, rfl⟩
  | response status decoded =>
    rcases h with h | h
    · simp [exportVirtualMachineNamesAndStatuses, h]
    · subst h
      by_cases hs : status = 200 <;>
        simp [exportVirtualMachineNamesAndStatuses, hs]

theorem migrationTime_fetchFails (parse : String → Option ℚ)
    (f : FetchOutcome MigrationList) (m : Metrics) (h : fetchFails f) :
    (exportVirtualMachineMigrationTime parse f m).2 = m ∧
    ∃ e, (exportVirtualMachineMigrationTime parse f m).1 = .error e := by
  cases f with
  | transportError => exact ⟨rfl, .transport, rfl⟩
  | response status decoded =>
    rcases h with h | h
    · simp [exportVirtualMachineMigrationTime, h]
    · subst h
      by_cases hs : status = 200 <;>
        simp [exportVirtualMachineMigrationTime, hs]

/-- C4: any extraction routine invocation whose upstream fetch fails — the
transport call errors, the status is not 200, or the decode fails —
returns an error (for a non-200 status, `unexpectedStatus status`) and
leaves the whole registry exactly as it was: no metric write happens. -/
theorem export_failure_no_write (ns : String)
    (cf sf : FetchOutcome VMList) (mf : FetchOutcome MigrationList)
    (parse : String → Option ℚ) (m₁ m₂ m₃ : Metrics)
    (h1 : fetchFails cf) (h2 : fetchFails sf) (h3 : fetchFails mf) :
    ((exportVirtualMachineCount ns cf m₁).2 = m₁ ∧
      ∃ e, (exportVirtualMachineCount ns cf m₁).1 = .error e) ∧
    ((exportVirtualMachineNamesAndStatuses ns sf m₂).2 = m₂ ∧
      ∃ e, (exportVirtualMachineNamesAndStatuses ns sf m₂).1 = .error e) ∧
    ((exportVirtualMachineMigrationTime parse mf m₃).2 = m₃ ∧
      ∃ e, (exportVirtualMachineMigrationTime parse mf m₃).1 = .error e) ∧
    (∀ (s : Nat) (d : Option VMList), cf = .response s d → s ≠ 200 →
      (exportVirtualMachineCount ns cf m₁).1 = .error (.unexpectedStatus s)) ∧
    (∀ (s : Nat) (d : Option VMList), sf = .response s d → s ≠ 200 →
      (exportVirtualMachineNamesAndStatuses ns sf m₂).1
        = .error (.unexpectedStatus s)) ∧
    (∀ (s : Nat) (d : Option MigrationList), mf = .response s d → s ≠ 200 →
      (exportVirtualMachineMigrationTime parse mf m₃).1
        = .error (.unexpectedStatus s)) := by
  refine ⟨count_fetchFails ns cf m₁ h1, status_fetchFails ns sf m₂ h2,
    migrationTime_fetchFails parse mf m₃ h3, ?_, ?_, ?_⟩
  · intro s d heq hne
    subst heq
    simp [exportVirtualMachineCount, hne]
  · intro s d heq hne
    subst heq
    simp [exportVirtualMachineNamesAndStatuses, hne]
  · intro s d heq hne
    subst heq
    simp [exportVirtualMachineMigrationTime, hne]

/-- Witness for C4: a transport error, a 500 response and an undecodable
200 body each leave the registry untouched, and the 500 is identified in
the returned error. -/
theorem export_failure_no_write_witness :
    ((exportVirtualMachineCount ("default") .transportError initialMetrics).2
        = initialMetrics ∧
      ∃ e, (exportVirtualMachineCount ("default") .transportError
        initialMetrics).1 = .error e) ∧
    ((exportVirtualMachineNamesAndStatuses ("default") (.response 500 none)
        initialMetrics).2 = initialMetrics ∧
      ∃ e, (exportVirtualMachineNamesAndStatuses ("default") (.response 500 none)
        initialMetrics).1 = .error e) ∧
    ((exportVirtualMachineMigrationTime (fun _ => none) (.response 200 none)
        initialMetrics).2 = initialMetrics ∧
      ∃ e, (exportVirtualMachineMigrationTime (fun _ => none)
        (.response 200 none) initialMetrics).1 = .error e) ∧
    (exportVirtualMachineNamesAndStatuses ("default") (.response 500 none)
        initialMetrics).1 = .error (.unexpectedStatus 500) :=
  have h := export_failure_no_write ("default") .transportError
    (.response 500 none) (.response 200 none) (fun _ => none)
    initialMetrics initialMetrics initialMetrics
    trivial (Or.inl (by decide)) (Or.inr rfl)
  ⟨h.1, h.2.1, h.2.2.1, h.2.2.2.2.1 500 none rfl (by decide)⟩

/-- C5 counterexample: when every `registry.Register` call fails with an
`AlreadyRegisteredError` (double-registration), `startCmd` does not exit:
it adopts the existing collectors and proceeds to the polling loop, so the
exit code is not 1. -/
theorem already_registered_does_not_exit :
    startupExitCode (fun _ => RegisterOutcome.alreadyRegistered) ≠ some 1 := by
  decide

/-- C5 amended: a registration error other than `AlreadyRegisteredError` is
what makes `startCmd` exit with code 1 before the polling loop; a
double-registration (`AlreadyRegisteredError`) is absorbed by reusing the
already-registered collector and startup continues. -/
theorem startup_exit_iff_hard_failure :
    ∀ outcome : MetricId → RegisterOutcome,
    (startupExitCode outcome = some 1
      ↔ ∃ id, outcome id = RegisterOutcome.failure) ∧
    (startupExitCode outcome = none ∨ startupExitCode outcome = some 1) := by
  intro outcome
  have hmem : ∀ id : MetricId, id ∈ registrationOrder := by
    intro id; cases id <;> simp [registrationOrder]
  have hexit : ∀ r : RegisterOutcome,
      registerStepExits r = true ↔ r = RegisterOutcome.failure := by
    intro r; cases r <;> simp [registerStepExits]
  constructor
  · by_cases h : (registrationOrder.map outcome).any registerStepExits = true
    · simp only [startupExitCode, h, if_true]
      constructor
      · intro _
        rcases List.any_eq_true.mp h with ⟨x, hx, hxe⟩
        rcases List.mem_map.mp hx with ⟨id, _, rfl⟩
        exact ⟨id, (hexit _).mp hxe⟩
      · intro _; trivial
    · simp only [startupExitCode, h, if_false]
      constructor
      · intro hcontra; cases hcontra
      · rintro ⟨id, hid⟩
        exact absurd
          (List.any_eq_true.mpr
            ⟨outcome id, List.mem_map.mpr ⟨id, hmem id, rfl⟩, (hexit _).mpr hid⟩)
          h
  · unfold startupExitCode
    by_cases h : (registrationOrder.map outcome).any registerStepExits = true <;>
      simp [h]

theorem count_migrationCall_flatMap (l : List String) :
    (l.flatMap fun ns => [Event.countCall ns, Event.statusCall ns]).count
      Event.migrationCall = 0 := by
  induction l with
  | nil => rfl
  | cons ns rest ih =>
    simp [List.flatMap_cons, List.count_append, List.count_cons, ih]

/-- C6: every cycle of the scheduler loop visits the namespaces in list
order, running the count extraction then the status extraction for each,
and only then runs the migration-time extraction, exactly once per cycle,
followed by the sleep of the configured 15-second interval; `k` cycles of
the loop are exactly `k` repetitions of this trace, for every `k`. -/
theorem scheduler_cycle_structure :
    ∀ (cf sf : String → FetchOutcome VMList) (mf : FetchOutcome MigrationList)
      (parse : String → Option ℚ) (nsL : List String) (m : Metrics),
    (runCycle cf sf mf parse nsL m).2
      = nsL.flatMap (fun ns => [Event.countCall ns, Event.statusCall ns])
        ++ [Event.migrationCall, Event.sleepFor sleepSeconds] ∧
    (runCycle cf sf mf parse nsL m).2.count Event.migrationCall = 1 ∧
    sleepSeconds = 15 ∧
    (∀ (k : Nat) (cfk sfk : Nat → String → FetchOutcome VMList)
       (mfk : Nat → FetchOutcome MigrationList),
      (runLoop parse nsL cfk sfk mfk k m).2
        = (List.replicate k
            (nsL.flatMap (fun ns => [Event.countCall ns, Event.statusCall ns])
              ++ [Event.migrationCall, Event.sleepFor sleepSeconds])).flatten) := by
  intro cf sf mf parse nsL m
  refine ⟨runCycle_trace cf sf mf parse nsL m, ?_, rfl, ?_⟩
  · rw [runCycle_trace, List.count_append, count_migrationCall_flatMap]
    simp [List.count_cons]
  · intro k cfk sfk mfk
    exact runLoop_trace parse nsL cfk sfk mfk k m

/-- C7: over any number of scheduler cycles, the status gauge
`virtual_machine_status` is only ever written with the value 1: every label
tuple either keeps its previous value or holds 1, no tuple is ever deleted
or zeroed once present, and starting from the empty registry every present
tuple holds exactly 1 — stale series persist at value 1. -/
theorem status_gauge_writes_only_one
    (parse : String → Option ℚ) (nsL : List String)
    (cf sf : Nat → String → FetchOutcome VMList)
    (mf : Nat → FetchOutcome MigrationList) (k : Nat) (m : Metrics)
    (key : String × String × String) :
    (getLabel (runLoop parse nsL cf sf mf k m).1.vmStatus key
        = getLabel m.vmStatus key ∨
     getLabel (runLoop parse nsL cf sf mf k m).1.vmStatus key = some 1) ∧
    ((getLabel m.vmStatus key).isSome →
     (getLabel (runLoop parse nsL cf sf mf k m).1.vmStatus key).isSome) ∧
    (∀ v : ℚ,
      getLabel (runLoop parse nsL cf sf mf k initialMetrics).1.vmStatus key
        = some v → v = 1) := by
  refine ⟨(runLoop_vmStatus parse nsL cf sf mf k m key).1,
    (runLoop_vmStatus parse nsL cf sf mf k m key).2, ?_⟩
  intro v hv
  rcases (runLoop_vmStatus parse nsL cf sf mf k initialMetrics key).1 with h | h
  · rw [hv] at h
    simp [initialMetrics, getLabel] at h
  · rw [hv] at h
    exact Option.some_inj.mp h

/-- Witness for C7: one cycle over namespace `migrationlab` observing VM
`rocky9-esxi` as `Running` rewrites that series to 1 (here from a stale
value 5), keeps the series present, and from the empty registry yields
exactly 1. -/
theorem status_gauge_writes_only_one_witness :
    (getLabel (runLoop (fun _ => none) ["migrationlab"]
        (fun _ _ => FetchOutcome.transportError)
        (fun _ _ => FetchOutcome.response 200
          (some ⟨[⟨⟨"rocky9-esxi"⟩, ⟨"Running"⟩⟩]⟩))
        (fun _ => FetchOutcome.transportError) 1
        { vmCount := [],
          vmStatus := [(("migrationlab", "rocky9-esxi", "Running"), 5)],
          failedMigrations := [], migrationTime := [] }).1.vmStatus
        ("migrationlab", "rocky9-esxi", "Running")
      = getLabel
        ({ vmCount := [],
           vmStatus := [(("migrationlab", "rocky9-esxi", "Running"), 5)],
           failedMigrations := [], migrationTime := [] } : Metrics).vmStatus
        ("migrationlab", "rocky9-esxi", "Running") ∨
     getLabel (runLoop (fun _ => none) ["migrationlab"]
        (fun _ _ => FetchOutcome.transportError)
        (fun _ _ => FetchOutcome.response 200
          (some ⟨[⟨⟨"rocky9-esxi"⟩, ⟨"Running"⟩⟩]⟩))
        (fun _ => FetchOutcome.transportError) 1
        { vmCount := [],
          vmStatus := [(("migrationlab", "rocky9-esxi", "Running"), 5)],
          failedMigrations := [], migrationTime := [] }).1.vmStatus
        ("migrationlab", "rocky9-esxi", "Running") = some 1) ∧
    (getLabel (runLoop (fun _ => none) ["migrationlab"]
        (fun _ _ => FetchOutcome.transportError)
        (fun _ _ => FetchOutcome.response 200
          (some ⟨[⟨⟨"rocky9-esxi"⟩, ⟨"Running"⟩⟩]⟩))
        (fun _ => FetchOutcome.transportError) 1
        { vmCount := [],
          vmStatus := [(("migrationlab", "rocky9-esxi", "Running"), 5)],
          failedMigrations := [], migrationTime := [] }).1.vmStatus
        ("migrationlab", "rocky9-esxi", "Running")).isSome ∧
    (1 : ℚ) = 1 :=
  have h := status_gauge_writes_only_one (fun _ => none) ["migrationlab"]
    (fun _ _ => FetchOutcome.transportError)
    (fun _ _ => FetchOutcome.response 200
      (some ⟨[⟨⟨"rocky9-esxi"⟩, ⟨"Running"⟩⟩]⟩))
    (fun _ => FetchOutcome.transportError) 1
    { vmCount := [],
      vmStatus := [(("migrationlab", "rocky9-esxi", "Running"), 5)],
      failedMigrations := [], migrationTime := [] }
    ("migrationlab", "rocky9-esxi", "Running")
  ⟨h.1, h.2.1 (by decide), h.2.2 1 (by decide)⟩

/-- C8: the printed output — startup banner plus everything one cycle's
routines print — is identical for any two runs differing only in the token
(with identical upstream outcomes): the token reaches only the
`Authorization` header, never a printed line, and the banner prints the
mask `***` in its place. -/
theorem token_never_printed :
    ∀ (t₁ t₂ serverURL : String) (nsL : List String)
      (cf sf : String → FetchOutcome VMList) (mf : FetchOutcome MigrationList)
      (parse : String → Option ℚ),
    runOutput t₁ serverURL nsL cf sf mf parse
      = runOutput t₂ serverURL nsL cf sf mf parse ∧
    ("start called with --token=*** --server-url=" ++ serverURL
        ++ " --namespaces=" ++ fmtStringSlice nsL)
      ∈ startupBanner serverURL nsL := by
  intro t₁ t₂ serverURL nsL cf sf mf parse
  exact ⟨rfl, by simp [startupBanner]⟩

/-- C9: `failed_migrations_total` is registered at startup but no routine
and no number of scheduler cycles ever changes any of its series. -/
theorem failed_migrations_never_changes :
    ∀ (parse : String → Option ℚ) (nsL : List String)
      (cf sf : Nat → String → FetchOutcome VMList)
      (mf : Nat → FetchOutcome MigrationList) (k : Nat) (m : Metrics),
    (runLoop parse nsL cf sf mf k m).1.failedMigrations = m.failedMigrations ∧
    (∀ (ns : String) (f : FetchOutcome VMList) (m' : Metrics),
      (exportVirtualMachineCount ns f m').2.failedMigrations
        = m'.failedMigrations) ∧
    (∀ (ns : String) (f : FetchOutcome VMList) (m' : Metrics),
      (exportVirtualMachineNamesAndStatuses ns f m').2.failedMigrations
        = m'.failedMigrations) ∧
    (∀ (p : String → Option ℚ) (f : FetchOutcome MigrationList) (m' : Metrics),
      (exportVirtualMachineMigrationTime p f m').2.failedMigrations
        = m'.failedMigrations) ∧
    MetricId.failedMigrationsMetric ∈ registrationOrder := by
  intro parse nsL cf sf mf k m
  have hloop : ∀ (k : Nat) (m : Metrics),
      (runLoop parse nsL cf sf mf k m).1.failedMigrations
        = m.failedMigrations := by
    intro k
    induction k with
    | zero => intro m; rfl
    | succ k ih =>
      intro m
      show (runCycle (cf k) (sf k) (mf k) parse nsL
        (runLoop parse nsL cf sf mf k m).1).1.failedMigrations = _
      rw [runCycle_failedMigrations, ih]
  refine ⟨hloop k m,
    fun ns f m' => (exportVirtualMachineCount_effect ns f m').2.1,
    fun ns f m' => (exportVirtualMachineNamesAndStatuses_effect ns f m').2.1,
    fun p f m' => (exportVirtualMachineMigrationTime_effect p f m').2.2,
    by simp [registrationOrder]⟩
